import Mathlib

/-!
# Verification of the buddy-work assignment service (src/main.py)

Shallow embedding of the FastAPI service in `src/main.py`:

* `update_airtable_record` — the PATCH call with its retry/backoff loop
  (lines 63–93);
* `call_buddy_api` — the single work-execution POST (lines 95–113);
* `create_airtable_record` — the record-creation POST (lines 115–150);
* `assign_buddy_work` — the endpoint (lines 152–171);
* `process_buddy_work_background` — the detached background task
  (lines 173–219).

Network non-determinism is resolved by a `World` value that fixes the
outcome of every HTTP call the program might make; the embedding then
computes the program's behaviour (response, event trace, update calls)
as a pure function of the `World` and the request.
-/

namespace BuddyWork

/-- Mirrors FastAPI's `HTTPException(status_code, detail)`. -/
structure Exn where
  status : Nat
  detail : String
deriving Repr, DecidableEq

/-- Python `str(e)` of a `fastapi.HTTPException` renders as
`"{status_code}: {detail}"` (braces here are format placeholders). -/
def excStr (e : Exn) : String :=
  toString e.status ++ ": " ++ e.detail

/-- `MAX_RETRIES = 3` (line 33). -/
def MAX_RETRIES : Nat := 3

/-- `AIRTABLE_TIMEOUT = 30.0` seconds (line 32), modelled in whole seconds. -/
def AIRTABLE_TIMEOUT : Nat := 30

/-- `REQUIRED_AUTH_KEY` (line 35). -/
def REQUIRED_AUTH_KEY : String := "linkbricks-saxoji-benedict-ji-01034726435!@#$%231%$#@%"

/-- Timeout configured on the Airtable client:
`httpx.AsyncClient(timeout=AIRTABLE_TIMEOUT)` (line 54). -/
def airtable_client_timeout : Option Nat := some AIRTABLE_TIMEOUT

/-- Timeout configured on the Buddy client:
`httpx.AsyncClient(timeout=None)` (line 60). -/
def buddy_client_timeout : Option Nat := none

/-- The request body `TTSRequest` (lines 37–49). All fields are opaque
strings except `timezone : int`. -/
structure TTSRequest where
  auth_key : String
  base_id : String
  table_id : String
  airtable_api_key : String
  flowise_id : String
  id : String
  pwd : String
  timezone : Int
  order : String
  chat_id : String
  session_id : String
  category : String
deriving Repr, DecidableEq

/-- Outcome of one HTTP attempt against the Airtable PATCH endpoint, as
observed by the `try` body of `update_airtable_record`:
* `success body` — a 2xx response (`response.is_success`), `body` the JSON;
* `httpStatus c t` — a non-2xx response with status `c` and text `t`;
* `timeout` — `httpx.TimeoutException` raised by the transport;
* `otherError m` — any other exception with message `m`. -/
inductive AttemptOutcome where
  | success (body : String)
  | httpStatus (code : Nat) (text : String)
  | timeout
  | otherError (msg : String)
deriving Repr, DecidableEq

/-- Result of a whole `update_airtable_record` call: the returned JSON or
the raised `HTTPException`, the number of HTTP attempts issued, and the
seconds slept between attempts (`await asyncio.sleep(2 ** attempt)`). -/
structure UpdateRun where
  result : Except Exn String
  attemptsMade : Nat
  sleeps : List Nat
deriving Repr

/-- The body of the `for attempt in range(MAX_RETRIES)` loop of
`update_airtable_record` (lines 70–93), recursing over the list of
remaining attempt indices.  Branches, in source order:
* 2xx → return `response.json()`;
* non-2xx with `status_code >= 500` and `attempt < MAX_RETRIES - 1` →
  sleep `2 ** attempt`, continue;
* any other non-2xx (4xx, or 5xx on the last attempt) → the
  `HTTPException(response.status_code, ...)` raised in the `try` body is
  caught by `except Exception` and re-raised as a 500;
* `httpx.TimeoutException` → retry while `attempt < MAX_RETRIES - 1`,
  else raise 504 (raised inside the `except` handler, so not re-wrapped);
* any other exception → raise 500.
The `[]` case is Python's fall-off-the-loop `return None`; it is
unreachable because the last attempt always returns or raises. -/
def updateGo (outcomes : Nat → AttemptOutcome) : List Nat → UpdateRun
  | [] => { result := .error ⟨500, "loop exhausted"⟩, attemptsMade := 0, sleeps := [] }
  | attempt :: rest =>
    match outcomes attempt with
    | .success body => { result := .ok body, attemptsMade := 1, sleeps := [] }
    | .httpStatus c t =>
      if 500 ≤ c ∧ attempt < MAX_RETRIES - 1 then
        let r := updateGo outcomes rest
        { result := r.result, attemptsMade := r.attemptsMade + 1,
          sleeps := 2 ^ attempt :: r.sleeps }
      else
        { result := .error ⟨500, "Failed to update record: " ++
            excStr ⟨c, "Failed to update record: " ++ t⟩⟩,
          attemptsMade := 1, sleeps := [] }
    | .timeout =>
      if attempt < MAX_RETRIES - 1 then
        let r := updateGo outcomes rest
        { result := r.result, attemptsMade := r.attemptsMade + 1,
          sleeps := 2 ^ attempt :: r.sleeps }
      else
        { result := .error ⟨504, "Timeout while updating Airtable record"⟩,
          attemptsMade := 1, sleeps := [] }
    | .otherError m =>
      { result := .error ⟨500, "Failed to update record: " ++ m⟩,
        attemptsMade := 1, sleeps := [] }

/-- `update_airtable_record` (lines 63–93): run the retry loop over
attempt indices `range(MAX_RETRIES)`.  The `outcomes` function gives the
result each HTTP attempt would observe if issued. -/
def update_airtable_record (outcomes : Nat → AttemptOutcome) : UpdateRun :=
  updateGo outcomes (List.range MAX_RETRIES)

/-- An attempt outcome on which the loop retries: a 5xx response or a
transport timeout. -/
def isRetryable : AttemptOutcome → Bool
  | .httpStatus c _ => 500 ≤ c
  | .timeout => true
  | _ => false

/-- Outcome of the single Buddy-API POST, as observed by the `try` body
of `call_buddy_api`:
* `success j` — a 2xx response whose JSON is abstracted to its optional
  `"text"` field (the only field the program reads);
* `httpStatus c t` — a non-2xx response;
* `exn m` — any transport exception with message `m`. -/
inductive CallOutcome where
  | success (text? : Option String)
  | httpStatus (code : Nat) (text : String)
  | exn (msg : String)
deriving Repr, DecidableEq

/-- `call_buddy_api` (lines 95–113): one POST, no retry loop.  A non-2xx
response raises `HTTPException(response.status_code, ...)` inside the
`try`, which the `except Exception` clause catches and re-raises as a
500; a transport error is likewise re-raised as a 500. -/
def call_buddy_api (o : CallOutcome) : Except Exn (Option String) :=
  match o with
  | .success text? => .ok text?
  | .httpStatus c t =>
      .error ⟨500, "Buddy API call failed: " ++
        excStr ⟨c, "Buddy API call failed: " ++ t⟩⟩
  | .exn m => .error ⟨500, "Buddy API call failed: " ++ m⟩

/-- Outcome of the record-creation POST in `create_airtable_record`:
* `success rid` — a 2xx response whose JSON carries the new record id
  at `data['records'][0]['id']`;
* `httpStatus c t` — a non-2xx response;
* `exn m` — any other exception with message `m`. -/
inductive CreateOutcome where
  | success (recordId : String)
  | httpStatus (code : Nat) (text : String)
  | exn (msg : String)
deriving Repr, DecidableEq

/-- The `fields` object of the creation body (lines 121–137). -/
structure CreateFields where
  user_id : String
  user_pwd : String
  category : String
  order : String
  timezone : Int
  status : String
  chat_id : String
  session_id : String
  start_date : String
deriving Repr, DecidableEq

/-- The creation body built at lines 121–137: status `"running"`,
`start_date` the current UTC time. -/
def create_record_fields (req : TTSRequest) (now : String) : CreateFields :=
  { user_id := req.id
    user_pwd := req.pwd
    category := req.category
    order := req.order
    timezone := req.timezone
    status := "running"
    chat_id := req.chat_id
    session_id := req.session_id
    start_date := now }

/-- `create_airtable_record` (lines 115–150): one POST; on a 2xx reply
returns the store-assigned record id; any failure — the
`HTTPException(response.status_code, ...)` raised inside the `try`
included — is caught by `except Exception` and re-raised as a 500. -/
def create_airtable_record (o : CreateOutcome) : Except Exn String :=
  match o with
  | .success rid => .ok rid
  | .httpStatus c t =>
      .error ⟨500, "Failed to create record: " ++
        excStr ⟨c, "Failed to create record: " ++ t⟩⟩
  | .exn m => .error ⟨500, "Failed to create record: " ++ m⟩

/-- The `update_data` dict sent with a terminal PATCH (lines 184–188 and
205–209). -/
structure UpdateData where
  status : String
  result : String
  end_date : String
deriving Repr, DecidableEq

/-- One logical `update_airtable_record` call made by the background
task: the payload it carried and the run it produced. -/
structure UpdateCall where
  data : UpdateData
  run : UpdateRun
deriving Repr

/-- Observable events of one request, in chronological order:
each HTTP call attempt and the response sent to the caller. -/
inductive Event where
  | createCall (fields : CreateFields)
  | respond (status : Nat)
  | buddyCall (flowiseId : String) (question : String)
  | updateAttempt (recordId : String) (data : UpdateData)
deriving Repr

/-- Fixes the outcome of every HTTP call a request's processing might
make, and the wall-clock readings: `create` for the creation POST,
`buddy` for the work-execution POST, `upd k` for the attempt outcomes of
the `k`-th logical update call (`k = 0, 1` in program order), `tStart`
for the creation timestamp and `tEnd1`/`tEnd2` for the finished-path and
failed-path `end_date` readings. -/
structure World where
  create : CreateOutcome
  buddy : CallOutcome
  upd : Nat → Nat → AttemptOutcome
  tStart : String
  tEnd1 : String
  tEnd2 : String

/-- The PATCH-attempt events of one logical update call: one event per
HTTP attempt the retry loop issued. -/
def attemptEvents (recordId : String) (data : UpdateData) (run : UpdateRun) : List Event :=
  List.replicate run.attemptsMade (.updateAttempt recordId data)

/-- Result of the background task: whether it raised, the events it
emitted, and the logical update calls it made, in order. -/
structure BgResult where
  result : Except Exn Unit
  trace : List Event
  updates : List UpdateCall
deriving Repr

/-- The `try` body of `process_buddy_work_background` (lines 174–198):
call the Buddy API, read `buddy_result.get("text", "No result text
available")`, and PATCH the record to `finished`.  Either call may
raise; the raised exception is returned in the first component. -/
def bgTry (w : World) (req : TTSRequest) (recordId : String) : BgResult :=
  match call_buddy_api w.buddy with
  | .error e =>
      { result := .error e, trace := [.buddyCall req.flowise_id req.order], updates := [] }
  | .ok text? =>
      let result_text := text?.getD "No result text available"
      let data : UpdateData := { status := "finished", result := result_text, end_date := w.tEnd1 }
      let run := update_airtable_record (w.upd 0)
      { result := (match run.result with | .ok _ => .ok () | .error e => .error e)
        trace := .buddyCall req.flowise_id req.order :: attemptEvents recordId data run
        updates := [⟨data, run⟩] }

/-- The `except Exception` handler of `process_buddy_work_background`
(lines 200–219): PATCH the record to `failed` with the error's message;
the inner `try/except` swallows a failure of this update (logged only).
`updIdx` is how many logical update calls the `try` body already made,
so this update consumes the next outcome stream. -/
def bgExcept (w : World) (recordId : String) (error : Exn) (updIdx : Nat) :
    Except Exn Unit × List Event × List UpdateCall :=
  let data : UpdateData :=
    { status := "failed", result := "Processing failed: " ++ excStr error, end_date := w.tEnd2 }
  let run := update_airtable_record (w.upd updIdx)
  (.ok (), attemptEvents recordId data run, [⟨data, run⟩])

/-- `process_buddy_work_background` (lines 173–219): run the `try` body;
if it raised, run the `except` handler. -/
def process_buddy_work_background (w : World) (req : TTSRequest) (recordId : String) :
    BgResult :=
  let t := bgTry w req recordId
  match t.result with
  | .ok () => t
  | .error e =>
      let (r, ev, ups) := bgExcept w recordId e t.updates.length
      { result := r, trace := t.trace ++ ev, updates := t.updates ++ ups }

/-- The success body returned at lines 163–167. -/
structure SuccessBody where
  message : String
  record_id : String
  status : String
deriving Repr, DecidableEq

/-- Everything observable about one request: the HTTP response (body or
raised `HTTPException`), the full event trace — the response event
precedes the background events because FastAPI runs `BackgroundTasks`
after the response is sent — and the background task's result when one
was scheduled. -/
structure RequestResult where
  response : Except Exn SuccessBody
  trace : List Event
  bg : Option BgResult
deriving Repr

/-- `assign_buddy_work` (lines 152–171): reject a wrong `auth_key` with
403 before anything else; otherwise create the record, schedule the
background task, and answer `{message, record_id, status: "running"}`
(braces here describe the JSON shape).  A creation failure is caught by
the endpoint's `except Exception` and re-raised as a 500. -/
def assign_buddy_work (w : World) (req : TTSRequest) : RequestResult :=
  if req.auth_key ≠ REQUIRED_AUTH_KEY then
    { response := .error ⟨403, "Invalid authentication key"⟩
      trace := [.respond 403]
      bg := none }
  else
    match create_airtable_record w.create with
    | .ok record_id =>
        let bg := process_buddy_work_background w req record_id
        { response := .ok { message := "Successfully assigned Buddy Work",
                            record_id := record_id, status := "running" }
          trace := .createCall (create_record_fields req w.tStart) ::
                   .respond 200 :: bg.trace
          bg := some bg }
    | .error e =>
        { response := .error ⟨500, "Failed to initiate task: " ++ excStr e⟩
          trace := [.createCall (create_record_fields req w.tStart), .respond 500]
          bg := none }

/-- Is this event an HTTP call on the record-creation endpoint? -/
def isCreateEvent : Event → Bool
  | .createCall _ => true
  | _ => false

/-- Is this event an HTTP call on the work-execution service? -/
def isBuddyEvent : Event → Bool
  | .buddyCall _ _ => true
  | _ => false

/-- Is this event a PATCH attempt on the record? -/
def isUpdateEvent : Event → Bool
  | .updateAttempt _ _ => true
  | _ => false

/-- Number of creation POSTs in a trace. -/
def countCreate (t : List Event) : Nat := (t.filter isCreateEvent).length

/-- Number of work-execution POSTs in a trace. -/
def countBuddy (t : List Event) : Nat := (t.filter isBuddyEvent).length

/-- Number of PATCH attempts in a trace. -/
def countUpdate (t : List Event) : Nat := (t.filter isUpdateEvent).length

/-! ### Concrete sample data -/

/-- A well-formed request carrying the configured secret. -/
def sampleReq : TTSRequest :=
  { auth_key := REQUIRED_AUTH_KEY
    base_id := "appBase"
    table_id := "tblTable"
    airtable_api_key := "airkey"
    flowise_id := "flow1"
    id := "user1"
    pwd := "pw"
    timezone := 9
    order := "2+2?"
    chat_id := "chat1"
    session_id := "sess1"
    category := "math" }

/-- A world where every network call succeeds: the store assigns record
id `rec1`, the work execution answers `{"text": "4"}` (braces describe
the JSON), and every PATCH attempt gets a 2xx. -/
def happyWorld : World :=
  { create := .success "rec1"
    buddy := .success (some "4")
    upd := fun _ _ => .success "patched"
    tStart := "2026-10-12T00:00:00"
    tEnd1 := "2026-10-12T00:01:00"
    tEnd2 := "2026-10-12T00:02:00" }

/-- A world where the work execution succeeds but the first (finished)
update call meets a 400 on its only attempt, while the second (failed)
update call succeeds: exercises the double-update path of the
background task. -/
def finishedUpdateFailsWorld : World :=
  { happyWorld with
    upd := fun k _ => if k = 0 then .httpStatus 400 "Bad Request" else .success "patched" }

/-- Attempt outcomes `503, 503, 200`. -/
def outcomes503 : Nat → AttemptOutcome := fun i =>
  if i < 2 then .httpStatus 503 "Service Unavailable" else .success "patched"

/-- Attempt outcomes that always answer 400. -/
def outcomes400 : Nat → AttemptOutcome := fun _ => .httpStatus 400 "Bad Request"

-- scratch checks
example :
    update_airtable_record (fun _ => .httpStatus 400 "Bad Request") =
      { result := .error ⟨500, "Failed to update record: 400: Failed to update record: Bad Request"⟩,
        attemptsMade := 1, sleeps := [] } := by
  rfl

example :
    (update_airtable_record (fun i => if i < 2 then .httpStatus 503 "oops" else .success "ok")).attemptsMade = 3 := by
  rfl

example :
    (update_airtable_record (fun i => if i < 2 then .httpStatus 503 "oops" else .success "ok")).sleeps = [1, 2] := by
  rfl

example :
    (assign_buddy_work happyWorld sampleReq).response =
      .ok { message := "Successfully assigned Buddy Work", record_id := "rec1", status := "running" } := by
  rfl

example :
    (process_buddy_work_background happyWorld sampleReq "rec1").updates.map (fun u => u.data.status) =
      ["finished"] := by
  rfl

example :
    (process_buddy_work_background finishedUpdateFailsWorld sampleReq "rec1").updates.map
        (fun u => u.data.status) = ["finished", "failed"] := by
  rfl

/-! ### Facts about the update retry loop -/

theorem range_retries : List.range MAX_RETRIES = [0, 1, 2] := rfl

theorem update_attempts_le (o : Nat → AttemptOutcome) :
    (update_airtable_record o).attemptsMade ≤ MAX_RETRIES := by
  rcases h0 : o 0 with b0 | ⟨c0, t0⟩ | _ | m0 <;>
    rcases h1 : o 1 with b1 | ⟨c1, t1⟩ | _ | m1 <;>
      rcases h2 : o 2 with b2 | ⟨c2, t2⟩ | _ | m2 <;>
        simp only [update_airtable_record, range_retries, updateGo, h0, h1, h2, MAX_RETRIES] <;>
          (try split_ifs) <;> simp

theorem update_attempts_pos (o : Nat → AttemptOutcome) :
    1 ≤ (update_airtable_record o).attemptsMade := by
  rcases h0 : o 0 with b0 | ⟨c0, t0⟩ | _ | m0 <;>
    rcases h1 : o 1 with b1 | ⟨c1, t1⟩ | _ | m1 <;>
      rcases h2 : o 2 with b2 | ⟨c2, t2⟩ | _ | m2 <;>
        simp only [update_airtable_record, range_retries, updateGo, h0, h1, h2, MAX_RETRIES] <;>
          (try split_ifs) <;> simp

theorem update_retry_zero (o : Nat → AttemptOutcome)
    (h : 1 < (update_airtable_record o).attemptsMade) : isRetryable (o 0) = true := by
  rcases h0 : o 0 with b0 | ⟨c0, t0⟩ | _ | m0 <;>
    rcases h1 : o 1 with b1 | ⟨c1, t1⟩ | _ | m1 <;>
      rcases h2 : o 2 with b2 | ⟨c2, t2⟩ | _ | m2 <;>
        simp only [update_airtable_record, range_retries, updateGo, h0, h1, h2, MAX_RETRIES,
          isRetryable] at h ⊢ <;>
          (try split_ifs at h ⊢) <;> (try simp_all)

theorem update_retry_one (o : Nat → AttemptOutcome)
    (h : 2 < (update_airtable_record o).attemptsMade) : isRetryable (o 1) = true := by
  rcases h0 : o 0 with b0 | ⟨c0, t0⟩ | _ | m0 <;>
    rcases h1 : o 1 with b1 | ⟨c1, t1⟩ | _ | m1 <;>
      rcases h2 : o 2 with b2 | ⟨c2, t2⟩ | _ | m2 <;>
        simp only [update_airtable_record, range_retries, updateGo, h0, h1, h2, MAX_RETRIES,
          isRetryable] at h ⊢ <;>
          (try split_ifs at h ⊢) <;> (try simp_all)

theorem update_sleeps_exponential (o : Nat → AttemptOutcome) :
    (update_airtable_record o).sleeps =
      (List.range ((update_airtable_record o).attemptsMade - 1)).map (2 ^ ·) := by
  rcases h0 : o 0 with b0 | ⟨c0, t0⟩ | _ | m0 <;>
    rcases h1 : o 1 with b1 | ⟨c1, t1⟩ | _ | m1 <;>
      rcases h2 : o 2 with b2 | ⟨c2, t2⟩ | _ | m2 <;>
        simp only [update_airtable_record, range_retries, updateGo, h0, h1, h2, MAX_RETRIES] <;>
          (try split_ifs) <;> (try simp [List.range_succ]) <;> omega

theorem update_4xx_single_attempt (o : Nat → AttemptOutcome) (c : Nat) (t : String)
    (h : o 0 = .httpStatus c t) (hc : c < 500) :
    (update_airtable_record o).attemptsMade = 1 ∧
      ∃ e, (update_airtable_record o).result = .error e := by
  have hcc : ¬(500 ≤ c ∧ 0 < MAX_RETRIES - 1) := by
    rintro ⟨hle, -⟩; omega
  simp only [update_airtable_record, range_retries, updateGo, h]
  rw [if_neg hcc]
  exact ⟨rfl, _, rfl⟩

/-! ### Facts about the background task -/

theorem mem_attemptEvents (rid : String) (d : UpdateData) (run : UpdateRun) :
    ∀ e ∈ attemptEvents rid d run, isUpdateEvent e = true := by
  intro e he
  rw [List.eq_of_mem_replicate
    (show e ∈ List.replicate run.attemptsMade (Event.updateAttempt rid d) from he)]
  rfl

theorem bg_result_ok (w : World) (req : TTSRequest) (rid : String) :
    (process_buddy_work_background w req rid).result = .ok () := by
  rcases hb : w.buddy with t? | ⟨c, t⟩ | m
  · rcases hr : (update_airtable_record (w.upd 0)).result with e | b <;>
      simp [process_buddy_work_background, bgTry, bgExcept, call_buddy_api, hb, hr]
  · simp [process_buddy_work_background, bgTry, bgExcept, call_buddy_api, hb]
  · simp [process_buddy_work_background, bgTry, bgExcept, call_buddy_api, hb]

theorem bg_updates_ne_nil (w : World) (req : TTSRequest) (rid : String) :
    (process_buddy_work_background w req rid).updates ≠ [] := by
  rcases hb : w.buddy with t? | ⟨c, t⟩ | m
  · rcases hr : (update_airtable_record (w.upd 0)).result with e | b <;>
      simp [process_buddy_work_background, bgTry, bgExcept, call_buddy_api, hb, hr]
  · simp [process_buddy_work_background, bgTry, bgExcept, call_buddy_api, hb]
  · simp [process_buddy_work_background, bgTry, bgExcept, call_buddy_api, hb]

theorem bg_statuses (w : World) (req : TTSRequest) (rid : String) :
    ∀ u ∈ (process_buddy_work_background w req rid).updates,
      u.data.status = "finished" ∨ u.data.status = "failed" := by
  rcases hb : w.buddy with t? | ⟨c, t⟩ | m
  · rcases hr : (update_airtable_record (w.upd 0)).result with e | b <;>
      simp [process_buddy_work_background, bgTry, bgExcept, call_buddy_api, hb, hr]
  · simp [process_buddy_work_background, bgTry, bgExcept, call_buddy_api, hb]
  · simp [process_buddy_work_background, bgTry, bgExcept, call_buddy_api, hb]

theorem bg_updates_le_two (w : World) (req : TTSRequest) (rid : String) :
    (process_buddy_work_background w req rid).updates.length ≤ 2 := by
  rcases hb : w.buddy with t? | ⟨c, t⟩ | m
  · rcases hr : (update_airtable_record (w.upd 0)).result with e | b <;>
      simp [process_buddy_work_background, bgTry, bgExcept, call_buddy_api, hb, hr]
  · simp [process_buddy_work_background, bgTry, bgExcept, call_buddy_api, hb]
  · simp [process_buddy_work_background, bgTry, bgExcept, call_buddy_api, hb]

/-- When the background task makes two update calls, the first carried
status `finished` and its run raised, and the second carried status
`failed`. -/
theorem bg_two_updates_shape (w : World) (req : TTSRequest) (rid : String)
    (h : (process_buddy_work_background w req rid).updates.length = 2) :
    ∃ u1 u2, (process_buddy_work_background w req rid).updates = [u1, u2] ∧
      u1.data.status = "finished" ∧ (∃ e, u1.run.result = .error e) ∧
      u2.data.status = "failed" := by
  rcases hb : w.buddy with t? | ⟨c, t⟩ | m
  · rcases hr : (update_airtable_record (w.upd 0)).result with e | b
    · simp only [process_buddy_work_background, bgTry, bgExcept, call_buddy_api, hb, hr]
      exact ⟨_, _, rfl, rfl, ⟨e, hr⟩, rfl⟩
    · simp [process_buddy_work_background, bgTry, bgExcept, call_buddy_api, hb, hr] at h
  · simp [process_buddy_work_background, bgTry, bgExcept, call_buddy_api, hb] at h
  · simp [process_buddy_work_background, bgTry, bgExcept, call_buddy_api, hb] at h

/-- On a successful work-execution call, the first update call carries
status `finished` and the result text read from the optional `text`
field, with the sentinel substituted when the field is absent. -/
theorem bg_finished_update (w : World) (req : TTSRequest) (rid : String) (t? : Option String)
    (h : w.buddy = .success t?) :
    ∃ rest, (process_buddy_work_background w req rid).updates =
      { data := { status := "finished", result := t?.getD "No result text available",
                  end_date := w.tEnd1 },
        run := update_airtable_record (w.upd 0) } :: rest := by
  rcases hr : (update_airtable_record (w.upd 0)).result with e | b
  · simp only [process_buddy_work_background, bgTry, bgExcept, call_buddy_api, h, hr]
    exact ⟨_, rfl⟩
  · simp only [process_buddy_work_background, bgTry, bgExcept, call_buddy_api, h, hr]
    exact ⟨_, rfl⟩

/-- The background trace is one work-execution call followed only by
PATCH attempts. -/
theorem bg_trace_shape (w : World) (req : TTSRequest) (rid : String) :
    ∃ l, (process_buddy_work_background w req rid).trace =
        .buddyCall req.flowise_id req.order :: l ∧
      ∀ e ∈ l, isUpdateEvent e = true := by
  rcases hb : w.buddy with t? | ⟨c, t⟩ | m
  · rcases hr : (update_airtable_record (w.upd 0)).result with e | b
    · simp only [process_buddy_work_background, bgTry, bgExcept, call_buddy_api, hb, hr]
      refine ⟨_, rfl, ?_⟩
      intro ev hev
      rcases List.mem_append.mp hev with hm | hm
      · exact mem_attemptEvents _ _ _ ev hm
      · exact mem_attemptEvents _ _ _ ev hm
    · simp only [process_buddy_work_background, bgTry, bgExcept, call_buddy_api, hb, hr]
      exact ⟨_, rfl, mem_attemptEvents _ _ _⟩
  · simp only [process_buddy_work_background, bgTry, bgExcept, call_buddy_api, hb]
    refine ⟨_, rfl, ?_⟩
    intro ev hev
    exact mem_attemptEvents _ _ _ ev hev
  · simp only [process_buddy_work_background, bgTry, bgExcept, call_buddy_api, hb]
    refine ⟨_, rfl, ?_⟩
    intro ev hev
    exact mem_attemptEvents _ _ _ ev hev

theorem bg_buddy_once (w : World) (req : TTSRequest) (rid : String) :
    countBuddy (process_buddy_work_background w req rid).trace = 1 := by
  obtain ⟨l, hl, hupd⟩ := bg_trace_shape w req rid
  rw [hl]
  simp only [countBuddy, List.filter_cons]
  have hnil : l.filter isBuddyEvent = [] := by
    rw [List.filter_eq_nil_iff]
    intro e he
    have := hupd e he
    cases e <;> simp_all [isUpdateEvent, isBuddyEvent]
  simp [hnil, isBuddyEvent]

theorem bg_no_create (w : World) (req : TTSRequest) (rid : String) :
    countCreate (process_buddy_work_background w req rid).trace = 0 := by
  obtain ⟨l, hl, hupd⟩ := bg_trace_shape w req rid
  rw [hl]
  simp only [countCreate, List.filter_cons]
  have hnil : l.filter isCreateEvent = [] := by
    rw [List.filter_eq_nil_iff]
    intro e he
    have := hupd e he
    cases e <;> simp_all [isUpdateEvent, isCreateEvent]
  simp [hnil, isCreateEvent]

/-! ### Facts about the endpoint -/

theorem assign_auth_fail (w : World) (req : TTSRequest)
    (h : req.auth_key ≠ REQUIRED_AUTH_KEY) :
    assign_buddy_work w req =
      { response := .error ⟨403, "Invalid authentication key"⟩
        trace := [.respond 403]
        bg := none } := by
  simp [assign_buddy_work, h]

theorem assign_create_ok (w : World) (req : TTSRequest) (rid : String)
    (hk : req.auth_key = REQUIRED_AUTH_KEY) (hc : w.create = .success rid) :
    assign_buddy_work w req =
      { response := .ok { message := "Successfully assigned Buddy Work",
                          record_id := rid, status := "running" }
        trace := .createCall (create_record_fields req w.tStart) :: .respond 200 ::
                 (process_buddy_work_background w req rid).trace
        bg := some (process_buddy_work_background w req rid) } := by
  simp [assign_buddy_work, hk, hc, create_airtable_record]

theorem assign_create_fail (w : World) (req : TTSRequest)
    (hk : req.auth_key = REQUIRED_AUTH_KEY) (hf : ∀ rid, w.create ≠ .success rid) :
    ∃ e, create_airtable_record w.create = .error e ∧
      assign_buddy_work w req =
        { response := .error ⟨500, "Failed to initiate task: " ++ excStr e⟩
          trace := [.createCall (create_record_fields req w.tStart), .respond 500]
          bg := none } := by
  rcases hc : w.create with rid | ⟨c, t⟩ | m
  · exact absurd hc (hf rid)
  · refine ⟨⟨500, "Failed to create record: " ++
        excStr ⟨c, "Failed to create record: " ++ t⟩⟩, ?_, ?_⟩
    · rfl
    · simp [assign_buddy_work, hk, hc, create_airtable_record]
  · refine ⟨⟨500, "Failed to create record: " ++ m⟩, ?_, ?_⟩
    · rfl
    · simp [assign_buddy_work, hk, hc, create_airtable_record]

theorem trace_createCall_pos (w : World) (req : TTSRequest) (i : Nat) (f : CreateFields)
    (h : (assign_buddy_work w req).trace[i]? = some (.createCall f)) : i = 0 := by
  rcases i with _ | i
  · rfl
  exfalso
  by_cases hk : req.auth_key = REQUIRED_AUTH_KEY
  · rcases hc : w.create with rid | ⟨c, t⟩ | m
    · rw [assign_create_ok w req rid hk hc] at h
      obtain ⟨l, hl, hupd⟩ := bg_trace_shape w req rid
      rw [hl] at h
      rcases i with _ | _ | i <;> simp at h
      have := hupd _ (List.getElem?_mem h)
      simp [isUpdateEvent] at this
    · obtain ⟨e, -, he⟩ := assign_create_fail w req hk (by intro rid hrid; rw [hc] at hrid; cases hrid)
      rw [he] at h
      rcases i with _ | i <;> simp at h
    · obtain ⟨e, -, he⟩ := assign_create_fail w req hk (by intro rid hrid; rw [hc] at hrid; cases hrid)
      rw [he] at h
      rcases i with _ | i <;> simp at h
  · rw [assign_auth_fail w req hk] at h
    simp at h

theorem trace_buddyCall_pos (w : World) (req : TTSRequest) (i : Nat) (a b : String)
    (h : (assign_buddy_work w req).trace[i]? = some (.buddyCall a b)) : i = 2 := by
  by_cases hk : req.auth_key = REQUIRED_AUTH_KEY
  · rcases hc : w.create with rid | ⟨c, t⟩ | m
    · rw [assign_create_ok w req rid hk hc] at h
      obtain ⟨l, hl, hupd⟩ := bg_trace_shape w req rid
      rw [hl] at h
      rcases i with _ | _ | _ | i <;> simp at h ⊢
      exfalso
      have := hupd _ (List.getElem?_mem h)
      simp [isUpdateEvent] at this
    · obtain ⟨e, -, he⟩ := assign_create_fail w req hk (by intro rid hrid; rw [hc] at hrid; cases hrid)
      rw [he] at h
      rcases i with _ | _ | i <;> simp at h
    · obtain ⟨e, -, he⟩ := assign_create_fail w req hk (by intro rid hrid; rw [hc] at hrid; cases hrid)
      rw [he] at h
      rcases i with _ | _ | i <;> simp at h
  · rw [assign_auth_fail w req hk] at h
    rcases i with _ | i <;> simp at h

theorem trace_updateAttempt_pos (w : World) (req : TTSRequest) (i : Nat) (r : String)
    (d : UpdateData)
    (h : (assign_buddy_work w req).trace[i]? = some (.updateAttempt r d)) : 3 ≤ i := by
  by_cases hk : req.auth_key = REQUIRED_AUTH_KEY
  · rcases hc : w.create with rid | ⟨c, t⟩ | m
    · rw [assign_create_ok w req rid hk hc] at h
      obtain ⟨l, hl, hupd⟩ := bg_trace_shape w req rid
      rw [hl] at h
      rcases i with _ | _ | _ | i <;> simp at h ⊢
    · obtain ⟨e, -, he⟩ := assign_create_fail w req hk (by intro rid hrid; rw [hc] at hrid; cases hrid)
      rw [he] at h
      rcases i with _ | _ | i <;> simp at h
    · obtain ⟨e, -, he⟩ := assign_create_fail w req hk (by intro rid hrid; rw [hc] at hrid; cases hrid)
      rw [he] at h
      rcases i with _ | _ | i <;> simp at h
  · rw [assign_auth_fail w req hk] at h
    rcases i with _ | i <;> simp at h

theorem countUpdate_replicate (n : Nat) (rid : String) (d : UpdateData) :
    countUpdate (List.replicate n (Event.updateAttempt rid d)) = n := by
  induction n with
  | zero => rfl
  | succ n ih =>
      simp [countUpdate, List.replicate_succ, List.filter_cons, isUpdateEvent] at ih ⊢

theorem countUpdate_attemptEvents (rid : String) (d : UpdateData) (run : UpdateRun) :
    countUpdate (attemptEvents rid d run) = run.attemptsMade := by
  simpa [attemptEvents] using countUpdate_replicate run.attemptsMade rid d

theorem countUpdate_cons_buddy (a b : String) (l : List Event) :
    countUpdate (Event.buddyCall a b :: l) = countUpdate l := by
  simp [countUpdate, List.filter_cons, isUpdateEvent]

theorem countUpdate_append (l1 l2 : List Event) :
    countUpdate (l1 ++ l2) = countUpdate l1 + countUpdate l2 := by
  simp [countUpdate, List.filter_append]

theorem bg_update_event_exists (w : World) (req : TTSRequest) (rid : String) :
    1 ≤ countUpdate (process_buddy_work_background w req rid).trace := by
  rcases hb : w.buddy with t? | ⟨c, t⟩ | m
  · rcases hr : (update_airtable_record (w.upd 0)).result with e | b
    · simp only [process_buddy_work_background, bgTry, bgExcept, call_buddy_api, hb, hr]
      rw [List.cons_append, countUpdate_cons_buddy, countUpdate_append,
        countUpdate_attemptEvents, countUpdate_attemptEvents]
      have := update_attempts_pos (w.upd 0)
      omega
    · simp only [process_buddy_work_background, bgTry, bgExcept, call_buddy_api, hb, hr]
      rw [countUpdate_cons_buddy, countUpdate_attemptEvents]
      exact update_attempts_pos (w.upd 0)
  · simp only [process_buddy_work_background, bgTry, bgExcept, call_buddy_api, hb]
    rw [List.singleton_append, countUpdate_cons_buddy, countUpdate_attemptEvents]
    exact update_attempts_pos (w.upd 0)
  · simp only [process_buddy_work_background, bgTry, bgExcept, call_buddy_api, hb]
    rw [List.singleton_append, countUpdate_cons_buddy, countUpdate_attemptEvents]
    exact update_attempts_pos (w.upd 0)

/-! ### More concrete sample data used by witnesses and counterexamples -/

/-- A request whose `auth_key` is not the configured secret. -/
def badAuthReq : TTSRequest := { sampleReq with auth_key := "wrong-key" }

/-- A world where the work execution succeeds but the response JSON has
no `text` field. -/
def noTextWorld : World := { happyWorld with buddy := .success none }

/-- A world where the record-creation POST answers 500. -/
def createFailWorld : World :=
  { happyWorld with create := .httpStatus 500 "Internal Server Error" }

/-! ### The claims -/

/-- C1: for every dispatched background job the work-execution outcome is
converted into a terminal record status drawn from
`{finished, failed, timeout}`, an update of the record is always
attempted (at least one logical update call and at least one PATCH
attempt), and no work-execution error propagates out of the background
task as an unhandled exception (the task always returns normally). -/
theorem claim1_terminal_status_and_update_attempt
    (w : World) (req : TTSRequest) (rid : String) :
    (process_buddy_work_background w req rid).result = .ok () ∧
    1 ≤ (process_buddy_work_background w req rid).updates.length ∧
    1 ≤ countUpdate (process_buddy_work_background w req rid).trace ∧
    (process_buddy_work_background w req rid).updates.all
      (fun u => u.data.status == "finished" || u.data.status == "failed" ||
        u.data.status == "timeout") = true := by
  refine ⟨bg_result_ok w req rid, ?_, bg_update_event_exists w req rid, ?_⟩
  · have h := bg_updates_ne_nil w req rid
    cases hl : (process_buddy_work_background w req rid).updates with
    | nil => exact absurd hl h
    | cons a l => simp
  · rw [List.all_eq_true]
    intro u hu
    rcases bg_statuses w req rid u hu with h | h <;> simp [h]

/-- C2 counterexample: in `finishedUpdateFailsWorld` the work execution
succeeds but the `finished` update call fails with a 400, so the
background task issues a second update call — the record is not mutated
by a single update call as the claim states. -/
theorem claim2_single_update_counterexample :
    ¬ ((process_buddy_work_background finishedUpdateFailsWorld sampleReq "rec1").updates.length
      = 1) := by
  have h2 : (process_buddy_work_background finishedUpdateFailsWorld sampleReq "rec1").updates.length
      = 2 := rfl
  omega

/-- C2 amended: the background task issues at most two update calls; it
issues two exactly when the `finished` update call itself raised, in
which case the second carries status `failed`; a failure of the last
update call is only logged — the task still returns normally. -/
theorem claim2_at_most_two_updates (w : World) (req : TTSRequest) (rid : String) :
    (process_buddy_work_background w req rid).updates.length ≤ 2 ∧
    ((process_buddy_work_background w req rid).updates.length = 2 →
      ∃ u1 u2, (process_buddy_work_background w req rid).updates = [u1, u2] ∧
        u1.data.status = "finished" ∧ (∃ e, u1.run.result = .error e) ∧
        u2.data.status = "failed") ∧
    (process_buddy_work_background w req rid).result = .ok () :=
  ⟨bg_updates_le_two w req rid, bg_two_updates_shape w req rid, bg_result_ok w req rid⟩

theorem claim2_witness :
    (process_buddy_work_background finishedUpdateFailsWorld sampleReq "rec1").updates.length ≤ 2 ∧
    (∃ u1 u2,
      (process_buddy_work_background finishedUpdateFailsWorld sampleReq "rec1").updates
        = [u1, u2] ∧
      u1.data.status = "finished" ∧ (∃ e, u1.run.result = .error e) ∧
      u2.data.status = "failed") ∧
    (process_buddy_work_background finishedUpdateFailsWorld sampleReq "rec1").result = .ok () :=
  have h := claim2_at_most_two_updates finishedUpdateFailsWorld sampleReq "rec1"
  ⟨h.1, h.2.1 rfl, h.2.2⟩

/-- C3: a request whose `auth_key` differs from the configured secret is
answered with HTTP 403, no record-creation call is made, and no
background job is scheduled (no work-execution call, no PATCH). -/
theorem claim3_wrong_auth_rejected (w : World) (req : TTSRequest)
    (h : req.auth_key ≠ REQUIRED_AUTH_KEY) :
    (assign_buddy_work w req).response = .error ⟨403, "Invalid authentication key"⟩ ∧
    countCreate (assign_buddy_work w req).trace = 0 ∧
    countBuddy (assign_buddy_work w req).trace = 0 ∧
    countUpdate (assign_buddy_work w req).trace = 0 ∧
    (assign_buddy_work w req).bg = none := by
  rw [assign_auth_fail w req h]
  exact ⟨rfl, rfl, rfl, rfl, rfl⟩

theorem claim3_witness :
    (assign_buddy_work happyWorld badAuthReq).response =
      .error ⟨403, "Invalid authentication key"⟩ ∧
    countCreate (assign_buddy_work happyWorld badAuthReq).trace = 0 ∧
    countBuddy (assign_buddy_work happyWorld badAuthReq).trace = 0 ∧
    countUpdate (assign_buddy_work happyWorld badAuthReq).trace = 0 ∧
    (assign_buddy_work happyWorld badAuthReq).bg = none :=
  claim3_wrong_auth_rejected happyWorld badAuthReq (by decide)

/-- C4: with a correct `auth_key` and a successful creation call, exactly
one record-creation call is made, its fields carry status `running` and
the start timestamp, the creation call precedes the response event, the
response is `{message, record_id, status: "running"}` (braces describe
the JSON), and the response does not depend on the work-execution or
update outcomes — the endpoint does not await job completion. -/
theorem claim4_record_created_before_response (w : World) (req : TTSRequest) (rid : String)
    (hk : req.auth_key = REQUIRED_AUTH_KEY) (hc : w.create = .success rid) :
    (assign_buddy_work w req).response =
      .ok { message := "Successfully assigned Buddy Work", record_id := rid,
            status := "running" } ∧
    countCreate (assign_buddy_work w req).trace = 1 ∧
    (create_record_fields req w.tStart).status = "running" ∧
    (create_record_fields req w.tStart).start_date = w.tStart ∧
    (∃ rest, (assign_buddy_work w req).trace =
      .createCall (create_record_fields req w.tStart) :: .respond 200 :: rest) ∧
    (∀ b u t1 t2,
      (assign_buddy_work { w with buddy := b, upd := u, tEnd1 := t1, tEnd2 := t2 } req).response
        = (assign_buddy_work w req).response) := by
  have hresp := assign_create_ok w req rid hk hc
  refine ⟨by rw [hresp], ?_, rfl, rfl, ⟨_, by rw [hresp]⟩, ?_⟩
  · rw [hresp]
    have h0 := bg_no_create w req rid
    simp only [countCreate, List.filter_cons, isCreateEvent] at h0 ⊢
    simp [h0]
  · intro b u t1 t2
    rw [assign_create_ok { w with buddy := b, upd := u, tEnd1 := t1, tEnd2 := t2 } req rid hk hc,
      hresp]

theorem claim4_witness :
    (assign_buddy_work happyWorld sampleReq).response =
      .ok { message := "Successfully assigned Buddy Work", record_id := "rec1",
            status := "running" } ∧
    countCreate (assign_buddy_work happyWorld sampleReq).trace = 1 ∧
    (create_record_fields sampleReq happyWorld.tStart).status = "running" ∧
    (create_record_fields sampleReq happyWorld.tStart).start_date = happyWorld.tStart ∧
    (∃ rest, (assign_buddy_work happyWorld sampleReq).trace =
      .createCall (create_record_fields sampleReq happyWorld.tStart) :: .respond 200 :: rest) ∧
    (∀ b u t1 t2,
      (assign_buddy_work
          { happyWorld with buddy := b, upd := u, tEnd1 := t1, tEnd2 := t2 } sampleReq).response
        = (assign_buddy_work happyWorld sampleReq).response) :=
  claim4_record_created_before_response happyWorld sampleReq "rec1" rfl rfl

/-- C5: the update loop makes at most `MAX_RETRIES = 3` attempts, a
retried attempt was always a 5xx response or a transport timeout, the
sleeps between attempts are exponential with base 1s (`2 ^ attempt`), a
4xx first response fails after exactly one attempt, the sequence
`503, 503, 200` succeeds with exactly 3 attempts and sleeps `[1, 2]`,
and an immediate 400 produces exactly one attempt. -/
theorem claim5_update_retry_policy :
    (∀ o : Nat → AttemptOutcome,
      (update_airtable_record o).attemptsMade ≤ MAX_RETRIES ∧
      (1 < (update_airtable_record o).attemptsMade → isRetryable (o 0) = true) ∧
      (2 < (update_airtable_record o).attemptsMade → isRetryable (o 1) = true) ∧
      (update_airtable_record o).sleeps =
        (List.range ((update_airtable_record o).attemptsMade - 1)).map (2 ^ ·) ∧
      (∀ c t, o 0 = .httpStatus c t → c < 500 →
        (update_airtable_record o).attemptsMade = 1 ∧
          ∃ e, (update_airtable_record o).result = .error e)) ∧
    ((update_airtable_record outcomes503).attemptsMade = 3 ∧
      (∃ b, (update_airtable_record outcomes503).result = .ok b) ∧
      (update_airtable_record outcomes503).sleeps = [1, 2]) ∧
    ((update_airtable_record outcomes400).attemptsMade = 1 ∧
      ∃ e, (update_airtable_record outcomes400).result = .error e) := by
  refine ⟨fun o => ⟨update_attempts_le o, update_retry_zero o, update_retry_one o,
      update_sleeps_exponential o, fun c t h hc => update_4xx_single_attempt o c t h hc⟩,
    ⟨rfl, ⟨"patched", rfl⟩, rfl⟩, rfl, ?_⟩
  exact ⟨⟨500, "Failed to update record: " ++
    excStr ⟨400, "Failed to update record: " ++ "Bad Request"⟩⟩, rfl⟩

theorem claim5_witness :
    isRetryable (outcomes503 0) = true ∧ isRetryable (outcomes503 1) = true ∧
    ((update_airtable_record outcomes400).attemptsMade = 1 ∧
      ∃ e, (update_airtable_record outcomes400).result = .error e) :=
  ⟨(claim5_update_retry_policy.1 outcomes503).2.1 (by decide),
   (claim5_update_retry_policy.1 outcomes503).2.2.1 (by decide),
   (claim5_update_retry_policy.1 outcomes400).2.2.2.2 400 "Bad Request" rfl (by decide)⟩

/-- C6: when the work-execution call succeeds, the first update call of
the background task carries status `finished` and the result text read
from the response's `text` field, with the fixed sentinel
`"No result text available"` substituted when the field is absent — the
job is not treated as failed. -/
theorem claim6_finished_result_text (w : World) (req : TTSRequest) (rid : String)
    (t? : Option String) (h : w.buddy = .success t?) :
    ∃ rest, (process_buddy_work_background w req rid).updates =
      { data := { status := "finished", result := t?.getD "No result text available",
                  end_date := w.tEnd1 },
        run := update_airtable_record (w.upd 0) } :: rest :=
  bg_finished_update w req rid t? h

theorem claim6_witness :
    (∃ rest, (process_buddy_work_background happyWorld sampleReq "rec1").updates =
      { data := { status := "finished", result := "4", end_date := happyWorld.tEnd1 },
        run := update_airtable_record (happyWorld.upd 0) } :: rest) ∧
    (∃ rest, (process_buddy_work_background noTextWorld sampleReq "rec1").updates =
      { data := { status := "finished", result := "No result text available",
                  end_date := noTextWorld.tEnd1 },
        run := update_airtable_record (noTextWorld.upd 0) } :: rest) :=
  ⟨claim6_finished_result_text happyWorld sampleReq "rec1" (some "4") rfl,
   claim6_finished_result_text noTextWorld sampleReq "rec1" none rfl⟩

/-- C7: with a correct `auth_key`, a failing record-creation call makes
the endpoint answer with a 500/502-class error, no background task is
scheduled, and the work-execution client is never invoked (nor is any
PATCH issued). -/
theorem claim7_create_failure_no_background (w : World) (req : TTSRequest)
    (hk : req.auth_key = REQUIRED_AUTH_KEY) (hf : ∀ rid, w.create ≠ .success rid) :
    (∃ e, (assign_buddy_work w req).response = .error e ∧
      (e.status = 500 ∨ e.status = 502)) ∧
    (assign_buddy_work w req).bg = none ∧
    countBuddy (assign_buddy_work w req).trace = 0 ∧
    countUpdate (assign_buddy_work w req).trace = 0 := by
  obtain ⟨e, -, he⟩ := assign_create_fail w req hk hf
  rw [he]
  exact ⟨⟨_, rfl, Or.inl rfl⟩, rfl, rfl, rfl⟩

theorem claim7_witness :
    (∃ e, (assign_buddy_work createFailWorld sampleReq).response = .error e ∧
      (e.status = 500 ∨ e.status = 502)) ∧
    (assign_buddy_work createFailWorld sampleReq).bg = none ∧
    countBuddy (assign_buddy_work createFailWorld sampleReq).trace = 0 ∧
    countUpdate (assign_buddy_work createFailWorld sampleReq).trace = 0 :=
  claim7_create_failure_no_background createFailWorld sampleReq rfl
    (fun rid h => by simp [createFailWorld, happyWorld] at h)

/-- C8: in every request trace, a record-creation call precedes the
work-execution call, which precedes every PATCH attempt: each step's
input is the prior step's output, so no reordering is possible. -/
theorem claim8_create_invoke_update_order (w : World) (req : TTSRequest)
    (i j : Nat) (f : CreateFields) (a b r : String) (d : UpdateData) :
    ((assign_buddy_work w req).trace[i]? = some (.createCall f) →
      (assign_buddy_work w req).trace[j]? = some (.buddyCall a b) → i < j) ∧
    ((assign_buddy_work w req).trace[i]? = some (.buddyCall a b) →
      (assign_buddy_work w req).trace[j]? = some (.updateAttempt r d) → i < j) ∧
    ((assign_buddy_work w req).trace[i]? = some (.createCall f) →
      (assign_buddy_work w req).trace[j]? = some (.updateAttempt r d) → i < j) := by
  refine ⟨fun h1 h2 => ?_, fun h1 h2 => ?_, fun h1 h2 => ?_⟩
  · have p1 := trace_createCall_pos w req i f h1
    have p2 := trace_buddyCall_pos w req j a b h2
    omega
  · have p1 := trace_buddyCall_pos w req i a b h1
    have p2 := trace_updateAttempt_pos w req j r d h2
    omega
  · have p1 := trace_createCall_pos w req i f h1
    have p2 := trace_updateAttempt_pos w req j r d h2
    omega

theorem claim8_witness : (0 : Nat) < 2 ∧ (2 : Nat) < 3 ∧ (0 : Nat) < 3 :=
  ⟨(claim8_create_invoke_update_order happyWorld sampleReq 0 2
      (create_record_fields sampleReq happyWorld.tStart) "flow1" "2+2?" "rec1"
      { status := "finished", result := "4", end_date := happyWorld.tEnd1 }).1 rfl rfl,
   (claim8_create_invoke_update_order happyWorld sampleReq 2 3
      (create_record_fields sampleReq happyWorld.tStart) "flow1" "2+2?" "rec1"
      { status := "finished", result := "4", end_date := happyWorld.tEnd1 }).2.1 rfl rfl,
   (claim8_create_invoke_update_order happyWorld sampleReq 0 3
      (create_record_fields sampleReq happyWorld.tStart) "flow1" "2+2?" "rec1"
      { status := "finished", result := "4", end_date := happyWorld.tEnd1 }).2.2 rfl rfl⟩

/-- C9: the work-execution client is configured with no timeout ceiling
(`timeout=None`), the background task makes exactly one work-execution
call (no retries), and every terminal update it writes has status
exactly `finished` or `failed` — the status `timeout` is never written
by any code path. -/
theorem claim9_no_timeout_terminal_status :
    buddy_client_timeout = none ∧
    (∀ w req rid, countBuddy (process_buddy_work_background w req rid).trace = 1) ∧
    (∀ w req rid, (process_buddy_work_background w req rid).updates.all
      (fun u => u.data.status == "finished" || u.data.status == "failed") = true) := by
  refine ⟨rfl, bg_buddy_once, fun w req rid => ?_⟩
  rw [List.all_eq_true]
  intro u hu
  rcases bg_statuses w req rid u hu with h | h <;> simp [h]

/-- C10: with a correct `auth_key`, every record-creation failure is
surfaced to the caller as HTTP status exactly 500, whatever the upstream
store answered: the creation helper re-raises its own `HTTPException` as
a 500 and the endpoint's catch-all wraps the escaping exception into a
second 500 (both wrap layers visible in the detail string). -/
theorem claim10_sync_failure_exactly_500 (w : World) (req : TTSRequest)
    (hk : req.auth_key = REQUIRED_AUTH_KEY) :
    (∀ c t, w.create = .httpStatus c t →
      (assign_buddy_work w req).response = .error ⟨500, "Failed to initiate task: " ++
        excStr ⟨500, "Failed to create record: " ++
          excStr ⟨c, "Failed to create record: " ++ t⟩⟩⟩) ∧
    (∀ m, w.create = .exn m →
      (assign_buddy_work w req).response = .error ⟨500, "Failed to initiate task: " ++
        excStr ⟨500, "Failed to create record: " ++ m⟩⟩) := by
  constructor
  · intro c t hc
    simp [assign_buddy_work, hk, hc, create_airtable_record]
  · intro m hc
    simp [assign_buddy_work, hk, hc, create_airtable_record]

theorem claim10_witness :
    (assign_buddy_work createFailWorld sampleReq).response =
      .error ⟨500, "Failed to initiate task: " ++
        excStr ⟨500, "Failed to create record: " ++
          excStr ⟨500, "Failed to create record: " ++ "Internal Server Error"⟩⟩⟩ :=
  (claim10_sync_failure_exactly_500 createFailWorld sampleReq rfl).1 500
    "Internal Server Error" rfl

end BuddyWork
